import Mathlib

/-!
Verification development for the ADS-B scraper (`scraper.py`).

The program polls aircraft-position sources, normalizes JSON payloads into
flat records, and publishes batches to a Kafka topic.  This file shallowly
embeds the parts of the program the claims are about:

* a JSON value model (`JValue`) with Python-style dictionary access
  (`ac.get(k)` returns `None` for absent keys, which `pyGet` renders as
  `JValue.null`);
* the four source adapters (`LocalScraper.fetch`, `RegionalScraper.fetch`,
  `GlobalStreamScraper.fetch`, `GlobalOpenSkyScraper.fetch`) as pure
  functions of the HTTP response (the wall-clock `scrape_time` string and
  the configured source name are inputs);
* the OAuth2 token provider (`OpenSkyOAuth2.get_access_token`);
* `KafkaPublisher.publish_batch`;
* the URL rotation cursor (`itertools.cycle` over the configured URLs);
* one iteration of the `main` polling loop as a step function over the
  backoff state, and the process exit behaviour of `main`;
* `ConfigManager` construction and validation over a modelled environment.

Python exceptions are modelled as `Except` errors; raising on a fetch path
other than `RateLimitException` is rendered as `FetchError.transient`
because `main` catches everything else in its generic `except Exception`
branch.
-/

set_option autoImplicit false

namespace AdsbScraper

/-- Parsed JSON values, as produced by `response.json()`.  Numbers are
modelled as integers: no claim depends on float arithmetic, only on
presence, null-ness and copying of the values. -/
inductive JValue where
  | null
  | bool (b : Bool)
  | num (n : Int)
  | str (s : String)
  | arr (xs : List JValue)
  | obj (fields : List (String × JValue))

/-- A normalized aircraft record: the Python dict literal each scraper
builds, kept as an ordered association list. -/
abbrev Record := List (String × JValue)

/-- Embedding of `d.get(k)` on a Python dict: the value when the key is
present, `None` (here `JValue.null`) otherwise.  Note that, exactly as in
Python, a key that is present with value `null` and an absent key are not
distinguished by this accessor. -/
def pyGet (fields : List (String × JValue)) (k : String) : JValue :=
  match fields.find? (fun p => p.1 == k) with
  | some p => p.2
  | none => JValue.null

/-- Embedding of `d.get(k, default)` on a Python dict. -/
def pyGetD (fields : List (String × JValue)) (k : String) (d : JValue) : JValue :=
  match fields.find? (fun p => p.1 == k) with
  | some p => p.2
  | none => d

/-- Embedding of `k in d` on a Python dict. -/
def hasKey (fields : List (String × JValue)) (k : String) : Bool :=
  fields.any (fun p => p.1 == k)

/-- Embedding of `d[k]` on a Python dict: `none` models the `KeyError`. -/
def pyIndex (fields : List (String × JValue)) (k : String) : Option JValue :=
  match fields.find? (fun p => p.1 == k) with
  | some p => some p.2
  | none => none

/-- Embedding of the Python test `v is None`. -/
def isNullJ : JValue → Bool
  | JValue.null => true
  | _ => false

/-- Python truthiness of a JSON value: `None`, `False`, `0`, the empty
string, the empty list and the empty dict are falsy. -/
def isFalsy : JValue → Bool
  | JValue.null => true
  | JValue.bool b => !b
  | JValue.num n => n == 0
  | JValue.str s => s == ""
  | JValue.arr xs => xs.isEmpty
  | JValue.obj fs => fs.isEmpty

/-- Embedding of the Python expression `v or d`. -/
def pyOr (v : JValue) (d : JValue) : JValue :=
  if isFalsy v then d else v

/-- An HTTP response as the fetch code observes it: the status code and the
parsed JSON body; `body = none` models a body on which `response.json()`
raises (a `JSONDecodeError`). -/
structure HttpResp where
  status : Nat
  body : Option JValue

/-- Classification of a failed fetch, as `main` distinguishes the raised
exceptions: `rateLimited` is the `RateLimitException` class (HTTP 429/403),
`transient` is every other exception reaching the generic handler. -/
inductive FetchError where
  | rateLimited (msg : String)
  | transient (msg : String)
  deriving DecidableEq

/-- The aircraft dict built by `LocalScraper.fetch` for one entry `ac` of
the payload `aircraft` list (source lines 200-274), with the shared
`scrape_time` and the configured source name appended. -/
def localAircraft (name scrapeTime : String) (ac : List (String × JValue)) : Record :=
  [("hex", pyGet ac "hex"),
   ("type", pyGet ac "type"),
   ("flight", pyGet ac "flight"),
   ("r", pyGet ac "r"),
   ("t", pyGet ac "t"),
   ("desc", pyGet ac "desc"),
   ("ownOp", pyGet ac "ownOp"),
   ("year", pyGet ac "year"),
   ("lat", pyGet ac "lat"),
   ("lon", pyGet ac "lon"),
   ("alt_baro", pyGet ac "alt_baro"),
   ("alt_geom", pyGet ac "alt_geom"),
   ("gs", pyGet ac "gs"),
   ("track", pyGet ac "track"),
   ("track_rate", pyGet ac "track_rate"),
   ("roll", pyGet ac "roll"),
   ("mag_heading", pyGet ac "mag_heading"),
   ("true_heading", pyGet ac "true_heading"),
   ("baro_rate", pyGet ac "baro_rate"),
   ("geom_rate", pyGet ac "geom_rate"),
   ("r_dst", pyGet ac "r_dst"),
   ("r_dir", pyGet ac "r_dir"),
   ("ias", pyGet ac "ias"),
   ("tas", pyGet ac "tas"),
   ("mach", pyGet ac "mach"),
   ("oat", pyGet ac "oat"),
   ("tat", pyGet ac "tat"),
   ("ws", pyGet ac "ws"),
   ("wd", pyGet ac "wd"),
   ("squawk", pyGet ac "squawk"),
   ("emergency", pyGet ac "emergency"),
   ("category", pyGet ac "category"),
   ("alert", pyGet ac "alert"),
   ("spi", pyGet ac "spi"),
   ("nav_qnh", pyGet ac "nav_qnh"),
   ("nav_altitude_mcp", pyGet ac "nav_altitude_mcp"),
   ("nav_altitude_fms", pyGet ac "nav_altitude_fms"),
   ("nav_heading", pyGet ac "nav_heading"),
   ("nav_modes", pyGetD ac "nav_modes" (JValue.arr [])),
   ("version", pyGet ac "version"),
   ("nic", pyGet ac "nic"),
   ("rc", pyGet ac "rc"),
   ("nic_baro", pyGet ac "nic_baro"),
   ("nac_p", pyGet ac "nac_p"),
   ("nac_v", pyGet ac "nac_v"),
   ("sil", pyGet ac "sil"),
   ("sil_type", pyGet ac "sil_type"),
   ("gva", pyGet ac "gva"),
   ("sda", pyGet ac "sda"),
   ("dbFlags", pyGet ac "dbFlags"),
   ("rssi", pyGet ac "rssi"),
   ("messages", pyGet ac "messages"),
   ("mlat", pyGetD ac "mlat" (JValue.arr [])),
   ("tisb", pyGetD ac "tisb" (JValue.arr [])),
   ("seen_pos", pyGet ac "seen_pos"),
   ("seen", pyGet ac "seen"),
   ("lastPosition", pyGet ac "lastPosition"),
   ("calc_track", pyGet ac "calc_track"),
   ("gpsOkLat", pyGet ac "gpsOkLat"),
   ("gpsOkLon", pyGet ac "gpsOkLon"),
   ("gpsOkBefore", pyGet ac "gpsOkBefore"),
   ("source", JValue.str name),
   ("scrape_time", JValue.str scrapeTime)]

/-- The `for ac in data.get('aircraft', [])` loop of `LocalScraper.fetch`:
entries whose `lat` or `lon` KEY is absent are skipped
(`if 'lat' not in ac or 'lon' not in ac: continue`); the survivors are
normalized in order.  An entry that is not a JSON object makes the Python
attribute access fail, which the enclosing handler re-raises: modelled as
an error. -/
def localEntries (name scrapeTime : String) : List JValue → Except String (List Record)
  | [] => Except.ok []
  | JValue.obj ac :: rest =>
    if hasKey ac "lat" && hasKey ac "lon" then
      match localEntries name scrapeTime rest with
      | Except.error e => Except.error e
      | Except.ok rs => Except.ok (localAircraft name scrapeTime ac :: rs)
    else
      localEntries name scrapeTime rest
  | _ :: _ => Except.error "TypeError: aircraft entry is not a dict"

/-- The status-classification block shared verbatim by the three plain
scrapers (and, for the data request, by the OpenSky one): 429 and 403
raise `RateLimitException`; `raise_for_status` turns every other status of
at least 400 into a generic error; then `response.json()` runs and the
payload is handed to the per-source normalization. -/
def httpClassified (resp : HttpResp) (parse : JValue → Except String (List Record)) :
    Except FetchError (List Record) :=
  if resp.status == 429 then
    Except.error (FetchError.rateLimited "Rate limited by url")
  else if resp.status == 403 then
    Except.error (FetchError.rateLimited "Forbidden response from url")
  else if 400 ≤ resp.status then
    Except.error (FetchError.transient "HTTPError")
  else
    match resp.body with
    | none => Except.error (FetchError.transient "JSONDecodeError")
    | some data =>
      match parse data with
      | Except.error e => Except.error (FetchError.transient e)
      | Except.ok rs => Except.ok rs

/-- `data.get(key, [])` followed by the `for` loop `entriesFn` over the
resulting list: the payload must be a dict and the value under `key` a
list, else the Python iteration raises. -/
def parsePayload (key : String) (entriesFn : List JValue → Except String (List Record))
    (data : JValue) : Except String (List Record) :=
  match data with
  | JValue.obj fields =>
    match pyGetD fields key (JValue.arr []) with
    | JValue.arr entries => entriesFn entries
    | _ => Except.error "TypeError: payload value is not iterable"
  | _ => Except.error "AttributeError: payload has no get"

/-- `LocalScraper.fetch` on a received response (source lines 174-286):
the classified status block, then normalization of `data.get('aircraft', [])`. -/
def localFetch (name scrapeTime : String) (resp : HttpResp) : Except FetchError (List Record) :=
  httpClassified resp (parsePayload "aircraft" (localEntries name scrapeTime))

/-- The aircraft dict built by `RegionalScraper.fetch` for one entry `ac`
of the payload `ac` list (source lines 324-386). -/
def regionalAircraft (name scrapeTime : String) (ac : List (String × JValue)) : Record :=
  [("hex", pyGet ac "hex"),
   ("type", pyGet ac "type"),
   ("flight", pyGet ac "flight"),
   ("r", pyGet ac "r"),
   ("t", pyGet ac "t"),
   ("desc", pyGet ac "desc"),
   ("ownOp", pyGet ac "ownOp"),
   ("year", pyGet ac "year"),
   ("lat", pyGet ac "lat"),
   ("lon", pyGet ac "lon"),
   ("alt_baro", pyGet ac "alt_baro"),
   ("alt_geom", pyGet ac "alt_geom"),
   ("gs", pyGet ac "gs"),
   ("track", pyGet ac "track"),
   ("mag_heading", pyGet ac "mag_heading"),
   ("true_heading", pyGet ac "true_heading"),
   ("nav_heading", pyGet ac "nav_heading"),
   ("baro_rate", pyGet ac "baro_rate"),
   ("geom_rate", pyGet ac "geom_rate"),
   ("dst", pyGet ac "dst"),
   ("dir", pyGet ac "dir"),
   ("ias", pyGet ac "ias"),
   ("mach", pyGet ac "mach"),
   ("squawk", pyGet ac "squawk"),
   ("emergency", pyGet ac "emergency"),
   ("category", pyGet ac "category"),
   ("alert", pyGet ac "alert"),
   ("spi", pyGet ac "spi"),
   ("nav_qnh", pyGet ac "nav_qnh"),
   ("nav_altitude_mcp", pyGet ac "nav_altitude_mcp"),
   ("nav_altitude_fms", pyGet ac "nav_altitude_fms"),
   ("nav_modes", pyGetD ac "nav_modes" (JValue.arr [])),
   ("version", pyGet ac "version"),
   ("nic", pyGet ac "nic"),
   ("rc", pyGet ac "rc"),
   ("nic_baro", pyGet ac "nic_baro"),
   ("nac_p", pyGet ac "nac_p"),
   ("nac_v", pyGet ac "nac_v"),
   ("sil", pyGet ac "sil"),
   ("sil_type", pyGet ac "sil_type"),
   ("gva", pyGet ac "gva"),
   ("sda", pyGet ac "sda"),
   ("dbFlags", pyGet ac "dbFlags"),
   ("rssi", pyGet ac "rssi"),
   ("messages", pyGet ac "messages"),
   ("mlat", pyGetD ac "mlat" (JValue.arr [])),
   ("tisb", pyGetD ac "tisb" (JValue.arr [])),
   ("seen_pos", pyGet ac "seen_pos"),
   ("seen", pyGet ac "seen"),
   ("source", JValue.str name),
   ("scrape_time", JValue.str scrapeTime)]

/-- The `for ac in data.get('ac', [])` loop of `RegionalScraper.fetch`:
entries for which `ac.get('lat') is None or ac.get('lon') is None` are
skipped; a non-dict entry makes `ac.get` raise, modelled as an error. -/
def regionalEntries (name scrapeTime : String) : List JValue → Except String (List Record)
  | [] => Except.ok []
  | JValue.obj ac :: rest =>
    if isNullJ (pyGet ac "lat") || isNullJ (pyGet ac "lon") then
      regionalEntries name scrapeTime rest
    else
      match regionalEntries name scrapeTime rest with
      | Except.error e => Except.error e
      | Except.ok rs => Except.ok (regionalAircraft name scrapeTime ac :: rs)
  | _ :: _ => Except.error "AttributeError: aircraft entry has no get"

/-- `RegionalScraper.fetch` on a received response (source lines 298-398);
the status classification is identical to the local variant, the payload
key is `ac`. -/
def regionalFetch (name scrapeTime : String) (resp : HttpResp) : Except FetchError (List Record) :=
  httpClassified resp (parsePayload "ac" (regionalEntries name scrapeTime))

/-- The aircraft dict built by `GlobalStreamScraper.fetch` for one entry
`ac` of the payload `aircraft` list (source lines 436-501). -/
def streamAircraft (name scrapeTime : String) (ac : List (String × JValue)) : Record :=
  [("hex", pyGet ac "hex"),
   ("type", pyGet ac "type"),
   ("flight", pyGet ac "flight"),
   ("lat", pyGet ac "lat"),
   ("lon", pyGet ac "lon"),
   ("alt_baro", pyGet ac "alt_baro"),
   ("alt_geom", pyGet ac "alt_geom"),
   ("gs", pyGet ac "gs"),
   ("track", pyGet ac "track"),
   ("track_rate", pyGet ac "track_rate"),
   ("roll", pyGet ac "roll"),
   ("mag_heading", pyGet ac "mag_heading"),
   ("true_heading", pyGet ac "true_heading"),
   ("baro_rate", pyGet ac "baro_rate"),
   ("geom_rate", pyGet ac "geom_rate"),
   ("ias", pyGet ac "ias"),
   ("tas", pyGet ac "tas"),
   ("mach", pyGet ac "mach"),
   ("oat", pyGet ac "oat"),
   ("tat", pyGet ac "tat"),
   ("ws", pyGet ac "ws"),
   ("wd", pyGet ac "wd"),
   ("squawk", pyGet ac "squawk"),
   ("emergency", pyGet ac "emergency"),
   ("category", pyGet ac "category"),
   ("alert", pyGet ac "alert"),
   ("spi", pyGet ac "spi"),
   ("nav_qnh", pyGet ac "nav_qnh"),
   ("nav_altitude_mcp", pyGet ac "nav_altitude_mcp"),
   ("nav_altitude_fms", pyGet ac "nav_altitude_fms"),
   ("nav_heading", pyGet ac "nav_heading"),
   ("nav_modes", pyGetD ac "nav_modes" (JValue.arr [])),
   ("version", pyGet ac "version"),
   ("nic", pyGet ac "nic"),
   ("rc", pyGet ac "rc"),
   ("nic_baro", pyGet ac "nic_baro"),
   ("nac_p", pyGet ac "nac_p"),
   ("nac_v", pyGet ac "nac_v"),
   ("sil", pyGet ac "sil"),
   ("sil_type", pyGet ac "sil_type"),
   ("gva", pyGet ac "gva"),
   ("sda", pyGet ac "sda"),
   ("rssi", pyGet ac "rssi"),
   ("messages", pyGet ac "messages"),
   ("mlat", pyGetD ac "mlat" (JValue.arr [])),
   ("tisb", pyGetD ac "tisb" (JValue.arr [])),
   ("seen_pos", pyGet ac "seen_pos"),
   ("seen", pyGet ac "seen"),
   ("lastPosition", pyGet ac "lastPosition"),
   ("calc_track", pyGet ac "calc_track"),
   ("gpsOkLat", pyGet ac "gpsOkLat"),
   ("gpsOkLon", pyGet ac "gpsOkLon"),
   ("gpsOkBefore", pyGet ac "gpsOkBefore"),
   ("source", JValue.str name),
   ("scrape_time", JValue.str scrapeTime)]

/-- The `for ac in data.get('aircraft', [])` loop of
`GlobalStreamScraper.fetch`: the skip test is the null check
`ac.get('lat') is None or ac.get('lon') is None`, as in the regional
variant. -/
def streamEntries (name scrapeTime : String) : List JValue → Except String (List Record)
  | [] => Except.ok []
  | JValue.obj ac :: rest =>
    if isNullJ (pyGet ac "lat") || isNullJ (pyGet ac "lon") then
      streamEntries name scrapeTime rest
    else
      match streamEntries name scrapeTime rest with
      | Except.error e => Except.error e
      | Except.ok rs => Except.ok (streamAircraft name scrapeTime ac :: rs)
  | _ :: _ => Except.error "AttributeError: aircraft entry has no get"

/-- `GlobalStreamScraper.fetch` on a received response (source lines
410-513). -/
def streamFetch (name scrapeTime : String) (resp : HttpResp) : Except FetchError (List Record) :=
  httpClassified resp (parsePayload "aircraft" (streamEntries name scrapeTime))

/-- Embedding of `(state[2] or '').strip()`: a falsy value becomes the
empty string; a truthy string is stripped; a truthy non-string has no
`strip` attribute, so Python raises. -/
def originCountry (v : JValue) : Except String JValue :=
  match pyOr v (JValue.str "") with
  | JValue.str s => Except.ok (JValue.str s.trim)
  | _ => Except.error "AttributeError: value has no strip"

/-- Embedding of `state[12] if state[12] is not None else []`. -/
def nullToEmptyList (v : JValue) : JValue :=
  match v with
  | JValue.null => JValue.arr []
  | w => w

/-- The aircraft dict built by `GlobalOpenSkyScraper.fetch` for one state
vector (source lines 634-656).  The seventeen positional accesses
`state[0]` through `state[16]` raise `IndexError` on a short vector;
that, and a failing `.strip()`, abort the whole fetch. -/
def openskyAircraft (name scrapeTime : String) (st : List JValue) : Except String Record :=
  match st.get? 0, st.get? 1, st.get? 2, st.get? 3, st.get? 4, st.get? 5,
      st.get? 6, st.get? 7, st.get? 8, st.get? 9, st.get? 10, st.get? 11,
      st.get? 12, st.get? 13, st.get? 14, st.get? 15, st.get? 16 with
  | some s0, some s1, some s2, some s3, some s4, some s5, some s6, some s7,
      some s8, some s9, some s10, some s11, some s12, some s13, some s14,
      some s15, some s16 =>
    match originCountry s2 with
    | Except.error e => Except.error e
    | Except.ok oc =>
      Except.ok
        [("icao24", pyOr s0 (JValue.str "")),
         ("callsign", pyOr s1 (JValue.str "")),
         ("origin_country", oc),
         ("time_position", s3),
         ("last_contact", s4),
         ("lon", s5),
         ("lat", s6),
         ("baro_altitude", s7),
         ("on_ground", s8),
         ("velocity", s9),
         ("true_track", s10),
         ("vertical_rate", s11),
         ("sensors", nullToEmptyList s12),
         ("geo_altitude", s13),
         ("squawk", pyOr s14 (JValue.str "")),
         ("spi", if isFalsy s15 then JValue.num 0 else JValue.num 1),
         ("position_source", s16),
         ("source", JValue.str name),
         ("scrape_time", JValue.str scrapeTime)]
  | _, _, _, _, _, _, _, _, _, _, _, _, _, _, _, _, _ =>
    Except.error "IndexError: state vector too short"

/-- The `for state in states` loop of `GlobalOpenSkyScraper.fetch`.  The
skip test `state[5] is None or state[6] is None` evaluates `state[5]`
first and short-circuits, exactly as Python does; an out-of-range index
raises, and a state vector that is not a list is not subscriptable. -/
def openskyStates (name scrapeTime : String) : List JValue → Except String (List Record)
  | [] => Except.ok []
  | JValue.arr st :: rest =>
    match st.get? 5 with
    | none => Except.error "IndexError: state vector too short"
    | some v5 =>
      if isNullJ v5 then openskyStates name scrapeTime rest
      else
      match st.get? 6 with
      | none => Except.error "IndexError: state vector too short"
      | some v6 =>
        if isNullJ v6 then openskyStates name scrapeTime rest
        else
        match openskyAircraft name scrapeTime st with
        | Except.error e => Except.error e
        | Except.ok r =>
          match openskyStates name scrapeTime rest with
          | Except.error e => Except.error e
          | Except.ok rs => Except.ok (r :: rs)
  | _ :: _ => Except.error "TypeError: state vector is not subscriptable"

/-- The cached-token state of `OpenSkyOAuth2`: the stored
`self.access_token`, and one boolean standing for the freshness test
`self.token_expiry and datetime.now() < self.token_expiry` (wall-clock
time is not embedded, so the comparison outcome is an input). -/
structure TokenState where
  accessToken : Option JValue
  tokenFresh : Bool

/-- The token request of `OpenSkyOAuth2.get_access_token` (source lines
536-562): POST to the token endpoint, `raise_for_status`, then read
`token_data['access_token']` (a `KeyError` when absent).  Every failure
propagates as the original exception: none of these paths raises
`RateLimitException`. -/
def requestNewToken (resp : HttpResp) : Except String (JValue × TokenState) :=
  if 400 ≤ resp.status then
    Except.error "HTTPError from token endpoint"
  else
    match resp.body with
    | none => Except.error "JSONDecodeError"
    | some (JValue.obj fields) =>
      match pyIndex fields "access_token" with
      | some tok => Except.ok (tok, ⟨some tok, true⟩)
      | none => Except.error "KeyError: access_token"
    | some _ => Except.error "TypeError: token_data is not subscriptable"

/-- `OpenSkyOAuth2.get_access_token`: return the cached token while it is
truthy and fresh, otherwise request a new one. -/
def getAccessToken (st : TokenState) (resp : HttpResp) : Except String (JValue × TokenState) :=
  match st.accessToken with
  | some tok => if !isFalsy tok && st.tokenFresh then Except.ok (tok, st) else requestNewToken resp
  | none => requestNewToken resp

/-- `GlobalOpenSkyScraper.fetch` (source lines 587-667): acquire a bearer
token, then GET the data URL; 429 and 403 on the data request raise
`RateLimitException`; every other failure, including any failure of the
token acquisition, reaches the generic handler and is re-raised, hence
classified `transient`.  The payload field `time` is read but unused; the
records come from `data.get('states', [])`. -/
def openskyFetch (name scrapeTime : String) (tok : TokenState) (tokenResp dataResp : HttpResp) :
    Except FetchError (List Record) :=
  match getAccessToken tok tokenResp with
  | Except.error e => Except.error (FetchError.transient e)
  | Except.ok _ =>
    if dataResp.status == 429 then
      Except.error (FetchError.rateLimited "Rate limited by OpenSky")
    else if dataResp.status == 403 then
      Except.error (FetchError.rateLimited "Forbidden response from OpenSky")
    else if 400 ≤ dataResp.status then
      Except.error (FetchError.transient "HTTPError")
    else
      match dataResp.body with
      | none => Except.error (FetchError.transient "JSONDecodeError")
      | some data =>
        match parsePayload "states" (openskyStates name scrapeTime) data with
        | Except.error e => Except.error (FetchError.transient e)
        | Except.ok rs => Except.ok rs

/-- True exactly when a fetch outcome is the `RateLimitException` class,
the one `main` handles in its rate-limit branch. -/
def isRateLimitedErr : Except FetchError (List Record) → Bool
  | Except.error (FetchError.rateLimited _) => true
  | _ => false

/-- True exactly when an `Except` computation succeeded. -/
def isOkE {ε α : Type} : Except ε α → Bool
  | Except.ok _ => true
  | Except.error _ => false

/-- What `KafkaPublisher.publish_batch` did: the `(topic, record)` pairs
handed to `producer.send`, and whether `producer.flush` was reached. -/
structure PublishTrace where
  sends : List (String × Record)
  flushCalled : Bool

/-- `KafkaPublisher.publish_batch` (source lines 137-157): an empty batch
returns immediately (`if not data: return`) with no send and no flush;
otherwise every record is sent and the bounded flush runs, whose outcome
(any `KafkaError` or other exception from the send/flush machinery, taken
as an input here) is re-raised to the caller. -/
def publishBatch (topic : String) (data : List Record) (brokerOutcome : Except String Unit) :
    PublishTrace × Except String Unit :=
  if data.isEmpty then
    (⟨[], false⟩, Except.ok ())
  else
    (⟨data.map (fun r => (topic, r)), true⟩, brokerOutcome)

/-- The URL rotation state: `self.url_cycle = cycle(self.urls)` together
with how many times `next` has been taken. -/
structure UrlCursor where
  urls : List String
  pos : Nat

/-- Embedding of `url = next(self.url_cycle)`, the first statement of every
`fetch`: the k-th call yields `urls[k % len(urls)]` and advances the
cursor by exactly one, before any request is issued and regardless of how
the fetch then ends.  `none` is the unreachable `StopIteration` on an
empty list (the config guarantees at least one URL). -/
def UrlCursor.take (c : UrlCursor) : Option String × UrlCursor :=
  (c.urls.get? (c.pos % c.urls.length), ⟨c.urls, c.pos + 1⟩)

/-- The URL used by the k-th fetch call, counting from zero. -/
def urlUsed (urls : List String) (k : Nat) : Option String :=
  urls.get? (k % urls.length)

/-- The loop parameters `main` reads from the config.  Seconds are
modelled as natural numbers. -/
structure LoopConfig where
  pollInterval : Nat
  maxConsecutiveErrors : Nat

/-- The mutable loop state of `main`: `error_count` and
`rate_limit_backoff` (the pending backoff seconds). -/
structure LoopState where
  errorCount : Nat
  rateLimitBackoff : Nat

/-- The observable effects of one loop iteration: the sleeps performed, in
order, and the batch passed to `publisher.publish_batch` when that call
happened. -/
structure CycleTrace where
  sleeps : List Nat
  published : Option (List Record)

/-- Outcome of one iteration of the `while True` loop: continue with a new
state, or leave the loop through one of the two `break` statements. -/
inductive StepResult where
  | cont (s : LoopState) (t : CycleTrace)
  | term (t : CycleTrace)

/-- The top of every cycle (source lines 711-714): a positive pending
backoff is slept in full and then reset to zero, before the fetch is
attempted. -/
def applyPendingBackoff (s : LoopState) : LoopState × List Nat :=
  if 0 < s.rateLimitBackoff then (⟨s.errorCount, 0⟩, [s.rateLimitBackoff]) else (s, [])

/-- The body of one cycle after the pending-backoff block (source lines
716-753), as a function of the fetch outcome and, when a publish happens,
of its outcome.

* fetch ok, empty batch: log only, sleep `poll_interval`, state unchanged;
* fetch ok, non-empty batch, publish ok: `error_count = 0`, sleep
  `poll_interval`;
* publish raised: caught by the generic handler: increment `error_count`,
  `break` at the error budget, else sleep the capped exponential backoff
  immediately;
* `RateLimitException`: increment `error_count`, store
  `min(poll_interval * 2 ** error_count, 300)` as the pending backoff
  (computed before the budget check, exactly as in the source), `break` at
  the budget, else sleep the normal `poll_interval`;
* any other exception: as the publish-raised case. -/
def handleOutcome (cfg : LoopConfig) (s : LoopState) (fr : Except FetchError (List Record))
    (pr : Except String Unit) : StepResult :=
  match fr with
  | Except.ok data =>
    if data.isEmpty then
      StepResult.cont ⟨s.errorCount, s.rateLimitBackoff⟩ ⟨[cfg.pollInterval], none⟩
    else
      match pr with
      | Except.ok _ => StepResult.cont ⟨0, s.rateLimitBackoff⟩ ⟨[cfg.pollInterval], some data⟩
      | Except.error _ =>
        let ec := s.errorCount + 1
        if cfg.maxConsecutiveErrors ≤ ec then
          StepResult.term ⟨[], some data⟩
        else
          StepResult.cont ⟨ec, s.rateLimitBackoff⟩
            ⟨[min (cfg.pollInterval * 2 ^ ec) 300], some data⟩
  | Except.error (FetchError.rateLimited _) =>
    let ec := s.errorCount + 1
    let backoff := min (cfg.pollInterval * 2 ^ ec) 300
    if cfg.maxConsecutiveErrors ≤ ec then
      StepResult.term ⟨[], none⟩
    else
      StepResult.cont ⟨ec, backoff⟩ ⟨[cfg.pollInterval], none⟩
  | Except.error (FetchError.transient _) =>
    let ec := s.errorCount + 1
    if cfg.maxConsecutiveErrors ≤ ec then
      StepResult.term ⟨[], none⟩
    else
      StepResult.cont ⟨ec, s.rateLimitBackoff⟩ ⟨[min (cfg.pollInterval * 2 ^ ec) 300], none⟩

/-- Prefix some sleeps onto the trace of a step outcome. -/
def prependSleeps (pre : List Nat) : StepResult → StepResult
  | StepResult.cont s t => StepResult.cont s ⟨pre ++ t.sleeps, t.published⟩
  | StepResult.term t => StepResult.term ⟨pre ++ t.sleeps, t.published⟩

/-- One full iteration of the `while True` loop of `main`: apply the
pending backoff, then handle the cycle outcome. -/
def loopStep (cfg : LoopConfig) (s : LoopState) (fr : Except FetchError (List Record))
    (pr : Except String Unit) : StepResult :=
  let p := applyPendingBackoff s
  prependSleeps p.2 (handleOutcome cfg p.1 fr pr)

/-- The control part of a step outcome: the continuation state (or `none`
for termination) and the sleeps, forgetting what was published. -/
def stepControl : StepResult → Option LoopState × List Nat
  | StepResult.cont s t => (some s, t.sleeps)
  | StepResult.term t => (none, t.sleeps)

/-- True exactly when the iteration left the loop through a `break`. -/
def isTerm : StepResult → Bool
  | StepResult.term _ => true
  | StepResult.cont _ _ => false

/-- True exactly when the cycle counts as a consecutive failure: the fetch
raised, or it returned a non-empty batch whose publish raised. -/
def outcomeIsFailure (fr : Except FetchError (List Record)) (pr : Except String Unit) : Bool :=
  match fr with
  | Except.error _ => true
  | Except.ok data =>
    if data.isEmpty then false
    else
      match pr with
      | Except.ok _ => false
      | Except.error _ => true

/-- The immutable configuration `ConfigManager` builds. -/
structure Config where
  sourceType : String
  sourceName : String
  kafkaBrokers : List String
  kafkaTopic : String
  sourceUrls : List String
  pollInterval : Int
  startupSettleTime : Int
  postKafkaSettleTime : Int
  maxConsecutiveErrorsCfg : Int
  openskyClientId : Option String
  openskyClientSecret : Option String

/-- The process environment, and `os.getenv` over it. -/
def envGet (env : List (String × String)) (k : String) : Option String :=
  match env.find? (fun p => p.1 == k) with
  | some p => some p.2
  | none => none

/-- `os.getenv(k, default)`. -/
def envGetD (env : List (String × String)) (k d : String) : String :=
  match envGet env k with
  | some v => v
  | none => d

/-- Split a character list at a separator, keeping empty groups, like
Python `str.split(sep)`. -/
def splitOnChar (c : Char) : List Char → List (List Char)
  | [] => [[]]
  | a :: rest =>
    match splitOnChar c rest with
    | [] => if a = c then [[], []] else [[a]]
    | g :: gs => if a = c then [] :: g :: gs else (a :: g) :: gs

/-- Python `s.split(sep)` for a one-character separator, computed on the
underlying character list. -/
def splitStr (c : Char) (s : String) : List String :=
  (splitOnChar c s.data).map (fun cs => String.mk cs)

/-- Python `s.strip()`: drop leading and trailing whitespace. -/
def trimStr (s : String) : String :=
  String.mk (((s.data.dropWhile Char.isWhitespace).reverse.dropWhile Char.isWhitespace).reverse)

/-- Accumulate decimal digits, the core of Python `int(s)`. -/
def digitsAux : List Char → Nat → Option Nat
  | [], acc => some acc
  | c :: cs, acc => if c.isDigit then digitsAux cs (acc * 10 + (c.toNat - 48)) else none

/-- Decimal digits to a number; empty input is invalid. -/
def digitsToNat : List Char → Option Nat
  | [] => none
  | ds => digitsAux ds 0

/-- Python `int(s)` on the inputs the configuration uses: an optional
minus sign followed by decimal digits; anything else raises `ValueError`. -/
def strToInt (s : String) : Option Int :=
  match s.data with
  | '-' :: ds => (digitsToNat ds).map (fun n => -(n : Int))
  | ds => (digitsToNat ds).map (fun n => (n : Int))

/-- The comma-separated fallback parser for `SOURCE_URLS`:
`[url.strip() for url in urls_str.split(',') if url.strip()]`.  The
source first tries `json.loads`; only inputs on which that raises
`JSONDecodeError` (so, strings that are not valid JSON) reach this
branch, and only such inputs are covered by this embedding. -/
def parseSourceUrls (s : String) : List String :=
  ((splitStr ',' s).map trimStr).filter (fun u => u ≠ "")

/-- `int(os.getenv(k, d))`: the `ValueError` on a non-numeric value is a
configuration failure. -/
def parseIntEnv (env : List (String × String)) (k d : String) : Except String Int :=
  match strToInt (envGetD env k d) with
  | some n => Except.ok n
  | none => Except.error "ValueError: invalid literal for int"

/-- The recognized source types. -/
def validSources : List String := ["local", "regional", "global-stream", "global-opensky"]

/-- Python falsiness of an optional environment string: unset or empty. -/
def optFalsy : Option String → Bool
  | none => true
  | some s => s == ""

/-- `ConfigManager.validate` (source lines 84-93). -/
def configValidate (c : Config) : Except String Config :=
  if validSources.contains c.sourceType then
    if c.sourceType == "global-opensky"
        && (optFalsy c.openskyClientId || optFalsy c.openskyClientSecret) then
      Except.error "OPENSKY_CLIENT_ID and OPENSKY_CLIENT_SECRET required for global-opensky"
    else
      Except.ok c
  else
    Except.error "SOURCE_TYPE must be one of the valid sources"

/-- `ConfigManager.__init__` (source lines 38-82): read and check the
environment in source order; any `ValueError` raised here is uncaught in
`main`. -/
def configInit (env : List (String × String)) : Except String Config :=
  let sourceType := envGetD env "SOURCE_TYPE" "local"
  let sourceName := envGetD env "SOURCE_NAME" "local"
  let kafkaBrokers := splitStr ',' (envGetD env "KAFKA_BROKERS" "k3s-vm1:30092,k3s-vm2:30093")
  match envGet env "KAFKA_TOPIC" with
  | none => Except.error "KAFKA_TOPIC environment variable must be set"
  | some topic =>
    if topic = "" then
      Except.error "KAFKA_TOPIC environment variable must be set"
    else
      match envGet env "SOURCE_URLS" with
      | none => Except.error "SOURCE_URLS environment variable must be set"
      | some urlsStr =>
        if urlsStr = "" then
          Except.error "SOURCE_URLS environment variable must be set"
        else
          let urls := parseSourceUrls urlsStr
          if urls = [] then
            Except.error "SOURCE_URLS must contain at least one URL"
          else
            match parseIntEnv env "POLL_INTERVAL" "10" with
            | Except.error e => Except.error e
            | Except.ok pollI =>
              match parseIntEnv env "STARTUP_SETTLE_TIME" "15" with
              | Except.error e => Except.error e
              | Except.ok settle =>
                match parseIntEnv env "POST_KAFKA_SETTLE_TIME" "10" with
                | Except.error e => Except.error e
                | Except.ok postSettle =>
                  match parseIntEnv env "MAX_CONSECUTIVE_ERRORS" "10" with
                  | Except.error e => Except.error e
                  | Except.ok maxErr =>
                    configValidate
                      ⟨sourceType, sourceName, kafkaBrokers, topic, urls, pollI,
                        settle, postSettle, maxErr,
                        envGet env "OPENSKY_CLIENT_ID", envGet env "OPENSKY_CLIENT_SECRET"⟩

/-- How the polling loop of a successfully configured process ended:
through the caught `KeyboardInterrupt`, or through one of the two `break`
statements after the consecutive-error budget was reached. -/
inductive LoopExit where
  | gracefulInterrupt
  | errorBudgetExceeded

/-- The process exit code of `main` run as a script.  A `ValueError` from
`ConfigManager()` is uncaught, and CPython exits with status 1 on an
uncaught exception.  Both loop exits fall through to
`finally: publisher.close()` and return from `main` normally, so the
interpreter exits with status 0: the source has no `sys.exit` on the
error-budget path (its only `sys.exit(1)`, for an unknown source type at
line 697, is unreachable because `validate` already rejected it). -/
def mainExitCode (cfgRes : Except String Config) (le : LoopExit) : Nat :=
  match cfgRes with
  | Except.error _ => 1
  | Except.ok _ =>
    match le with
    | LoopExit.gracefulInterrupt => 0
    | LoopExit.errorBudgetExceeded => 0

/-- A record has a position when neither coordinate is the null value
(a record whose latitude or longitude is `null` carries no position). -/
def hasPosition (r : Record) : Prop :=
  pyGet r "lat" ≠ JValue.null ∧ pyGet r "lon" ≠ JValue.null

/-- Loop parameters of the scenario used by the witnesses: poll interval
10 seconds, error budget 3. -/
def cfgEx : LoopConfig := ⟨10, 3⟩

/-- A payload entry whose `lat` and `lon` keys are present but null. -/
def acNullPos : List (String × JValue) := [("lat", JValue.null), ("lon", JValue.null)]

/-- A 200 response whose single aircraft entry carries null coordinates. -/
def respNullPos : HttpResp :=
  ⟨200, some (JValue.obj [("aircraft", JValue.arr [JValue.obj acNullPos])])⟩

/-- A payload entry with a real position. -/
def acPos : List (String × JValue) := [("lat", JValue.num 51), ("lon", JValue.num 4)]

/-- A 200 local/global-stream response with one positioned aircraft. -/
def respPosAircraft : HttpResp :=
  ⟨200, some (JValue.obj [("aircraft", JValue.arr [JValue.obj acPos])])⟩

/-- A 200 regional response with one positioned aircraft. -/
def respPosAc : HttpResp :=
  ⟨200, some (JValue.obj [("ac", JValue.arr [JValue.obj acPos])])⟩

/-- A full OpenSky state vector with a position. -/
def stateEx : List JValue :=
  [JValue.str "4840d6", JValue.str "KLM123", JValue.str "Netherlands",
   JValue.num 1700000000, JValue.num 1700000001, JValue.num 4, JValue.num 51,
   JValue.num 1000, JValue.bool false, JValue.num 200, JValue.num 90,
   JValue.num 0, JValue.null, JValue.num 1010, JValue.str "7000",
   JValue.bool false, JValue.num 0]

/-- A 200 OpenSky data response with one state vector. -/
def respStates : HttpResp :=
  ⟨200, some (JValue.obj [("states", JValue.arr [JValue.arr stateEx])])⟩

/-- The record the OpenSky scraper builds from `stateEx` (with source name
`src` and scrape time `T0`). -/
def openskyRecEx : Record :=
  match openskyAircraft "src" "T0" stateEx with
  | Except.ok r => r
  | Except.error _ => []

/-- A successful token-endpoint response. -/
def tokenRespOk : HttpResp := ⟨200, some (JValue.obj [("access_token", JValue.str "tok")])⟩

/-- A 401 from the token endpoint: the client credentials were rejected. -/
def tokenResp401 : HttpResp := ⟨401, some (JValue.obj [])⟩

/-- A minimal valid environment: both required keys set. -/
def envC3 : List (String × String) := [("KAFKA_TOPIC", "adsb"), ("SOURCE_URLS", "http://a")]

/-- An environment whose source type is not a recognized variant. -/
def envBadType : List (String × String) :=
  [("SOURCE_TYPE", "weird"), ("KAFKA_TOPIC", "adsb"), ("SOURCE_URLS", "http://a")]

/-- A concrete well-formed configuration value. -/
def someConfig : Config :=
  ⟨"local", "local", ["k3s-vm1:30092"], "adsb", ["http://a"], 10, 15, 10, 10, none, none⟩

theorem isNullJ_eq_false {v : JValue} (h : isNullJ v = false) : v ≠ JValue.null := by
  intro hv
  subst hv
  simp [isNullJ] at h

theorem localAircraft_source (n t : String) (ac : List (String × JValue)) :
    pyGet (localAircraft n t ac) "source" = JValue.str n := rfl

theorem localAircraft_time (n t : String) (ac : List (String × JValue)) :
    pyGet (localAircraft n t ac) "scrape_time" = JValue.str t := rfl

theorem regionalAircraft_lat (n t : String) (ac : List (String × JValue)) :
    pyGet (regionalAircraft n t ac) "lat" = pyGet ac "lat" := rfl

theorem regionalAircraft_lon (n t : String) (ac : List (String × JValue)) :
    pyGet (regionalAircraft n t ac) "lon" = pyGet ac "lon" := rfl

theorem regionalAircraft_source (n t : String) (ac : List (String × JValue)) :
    pyGet (regionalAircraft n t ac) "source" = JValue.str n := rfl

theorem regionalAircraft_time (n t : String) (ac : List (String × JValue)) :
    pyGet (regionalAircraft n t ac) "scrape_time" = JValue.str t := rfl

theorem streamAircraft_lat (n t : String) (ac : List (String × JValue)) :
    pyGet (streamAircraft n t ac) "lat" = pyGet ac "lat" := rfl

theorem streamAircraft_lon (n t : String) (ac : List (String × JValue)) :
    pyGet (streamAircraft n t ac) "lon" = pyGet ac "lon" := rfl

theorem streamAircraft_source (n t : String) (ac : List (String × JValue)) :
    pyGet (streamAircraft n t ac) "source" = JValue.str n := rfl

theorem streamAircraft_time (n t : String) (ac : List (String × JValue)) :
    pyGet (streamAircraft n t ac) "scrape_time" = JValue.str t := rfl

theorem openskyAircraft_ok {n t : String} {st : List JValue} {r : Record}
    (h : openskyAircraft n t st = Except.ok r) :
    (∃ v5, st.get? 5 = some v5 ∧ pyGet r "lon" = v5)
    ∧ (∃ v6, st.get? 6 = some v6 ∧ pyGet r "lat" = v6)
    ∧ pyGet r "source" = JValue.str n ∧ pyGet r "scrape_time" = JValue.str t := by
  unfold openskyAircraft at h
  repeat' split at h
  all_goals try simp at h
  all_goals subst h
  all_goals refine ⟨⟨_, ?_, rfl⟩, ⟨_, ?_, rfl⟩, rfl, rfl⟩ <;> assumption

theorem httpClassified_ok {resp : HttpResp} {parse : JValue → Except String (List Record)}
    {b : List Record} (h : httpClassified resp parse = Except.ok b) :
    ∃ data, resp.body = some data ∧ parse data = Except.ok b := by
  unfold httpClassified at h
  repeat' split at h
  all_goals try simp at h
  all_goals subst h
  all_goals exact ⟨_, by assumption, by assumption⟩

theorem parsePayload_ok {key : String} {f : List JValue → Except String (List Record)}
    {data : JValue} {b : List Record} (h : parsePayload key f data = Except.ok b) :
    ∃ es, f es = Except.ok b := by
  unfold parsePayload at h
  repeat' split at h
  all_goals try simp at h
  all_goals exact ⟨_, h⟩

theorem openskyFetch_ok {n t : String} {tok : TokenState} {tokenResp dataResp : HttpResp}
    {b : List Record} (h : openskyFetch n t tok tokenResp dataResp = Except.ok b) :
    ∃ sts, openskyStates n t sts = Except.ok b := by
  unfold openskyFetch at h
  repeat' split at h
  all_goals try simp at h
  all_goals subst h
  all_goals exact parsePayload_ok (by assumption)

theorem localEntries_props (n t : String) (es : List JValue) :
    ∀ b, localEntries n t es = Except.ok b →
      ∀ r ∈ b, pyGet r "source" = JValue.str n ∧ pyGet r "scrape_time" = JValue.str t := by
  induction es with
  | nil =>
    intro b h r hr
    simp only [localEntries, Except.ok.injEq] at h
    subst h
    simp at hr
  | cons e rest ih =>
    intro b h r hr
    cases e with
    | null => simp [localEntries] at h
    | bool x => simp [localEntries] at h
    | num x => simp [localEntries] at h
    | str x => simp [localEntries] at h
    | arr x => simp [localEntries] at h
    | obj ac =>
      simp only [localEntries] at h
      split at h
      · split at h
        · simp at h
        · rename_i rs heq
          simp only [Except.ok.injEq] at h
          subst h
          cases hr with
          | head => exact ⟨localAircraft_source n t ac, localAircraft_time n t ac⟩
          | tail _ hr2 => exact ih _ heq r hr2
      · exact ih _ h r hr

theorem regionalEntries_props (n t : String) (es : List JValue) :
    ∀ b, regionalEntries n t es = Except.ok b →
      ∀ r ∈ b,
        (pyGet r "lat" ≠ JValue.null ∧ pyGet r "lon" ≠ JValue.null)
        ∧ pyGet r "source" = JValue.str n ∧ pyGet r "scrape_time" = JValue.str t := by
  induction es with
  | nil =>
    intro b h r hr
    simp only [regionalEntries, Except.ok.injEq] at h
    subst h
    simp at hr
  | cons e rest ih =>
    intro b h r hr
    cases e with
    | null => simp [regionalEntries] at h
    | bool x => simp [regionalEntries] at h
    | num x => simp [regionalEntries] at h
    | str x => simp [regionalEntries] at h
    | arr x => simp [regionalEntries] at h
    | obj ac =>
      simp only [regionalEntries] at h
      split at h
      · exact ih _ h r hr
      · rename_i hc
        rw [Bool.not_eq_true, Bool.or_eq_false_iff] at hc
        split at h
        · simp at h
        · rename_i rs heq
          simp only [Except.ok.injEq] at h
          subst h
          cases hr with
          | head =>
            refine ⟨⟨?_, ?_⟩, regionalAircraft_source n t ac, regionalAircraft_time n t ac⟩
            · rw [regionalAircraft_lat]
              exact isNullJ_eq_false hc.1
            · rw [regionalAircraft_lon]
              exact isNullJ_eq_false hc.2
          | tail _ hr2 => exact ih _ heq r hr2

theorem streamEntries_props (n t : String) (es : List JValue) :
    ∀ b, streamEntries n t es = Except.ok b →
      ∀ r ∈ b,
        (pyGet r "lat" ≠ JValue.null ∧ pyGet r "lon" ≠ JValue.null)
        ∧ pyGet r "source" = JValue.str n ∧ pyGet r "scrape_time" = JValue.str t := by
  induction es with
  | nil =>
    intro b h r hr
    simp only [streamEntries, Except.ok.injEq] at h
    subst h
    simp at hr
  | cons e rest ih =>
    intro b h r hr
    cases e with
    | null => simp [streamEntries] at h
    | bool x => simp [streamEntries] at h
    | num x => simp [streamEntries] at h
    | str x => simp [streamEntries] at h
    | arr x => simp [streamEntries] at h
    | obj ac =>
      simp only [streamEntries] at h
      split at h
      · exact ih _ h r hr
      · rename_i hc
        rw [Bool.not_eq_true, Bool.or_eq_false_iff] at hc
        split at h
        · simp at h
        · rename_i rs heq
          simp only [Except.ok.injEq] at h
          subst h
          cases hr with
          | head =>
            refine ⟨⟨?_, ?_⟩, streamAircraft_source n t ac, streamAircraft_time n t ac⟩
            · rw [streamAircraft_lat]
              exact isNullJ_eq_false hc.1
            · rw [streamAircraft_lon]
              exact isNullJ_eq_false hc.2
          | tail _ hr2 => exact ih _ heq r hr2

theorem openskyStates_props (n t : String) (sts : List JValue) :
    ∀ b, openskyStates n t sts = Except.ok b →
      ∀ r ∈ b,
        (pyGet r "lat" ≠ JValue.null ∧ pyGet r "lon" ≠ JValue.null)
        ∧ pyGet r "source" = JValue.str n ∧ pyGet r "scrape_time" = JValue.str t := by
  induction sts with
  | nil =>
    intro b h r hr
    simp only [openskyStates, Except.ok.injEq] at h
    subst h
    simp at hr
  | cons s rest ih =>
    intro b h r hr
    cases s with
    | null => simp [openskyStates] at h
    | bool x => simp [openskyStates] at h
    | num x => simp [openskyStates] at h
    | str x => simp [openskyStates] at h
    | obj x => simp [openskyStates] at h
    | arr st =>
      simp only [openskyStates] at h
      split at h
      · simp at h
      · rename_i v5 heq5
        split at h
        · exact ih _ h r hr
        · rename_i h5
          rw [Bool.not_eq_true] at h5
          split at h
          · simp at h
          · rename_i v6 heq6
            split at h
            · exact ih _ h r hr
            · rename_i h6
              rw [Bool.not_eq_true] at h6
              split at h
              · simp at h
              · rename_i r0 heqA
                split at h
                · simp at h
                · rename_i rs heqR
                  simp only [Except.ok.injEq] at h
                  subst h
                  cases hr with
                  | head =>
                    obtain ⟨⟨v5x, e5, p5⟩, ⟨v6x, e6, p6⟩, psrc, ptime⟩ :=
                      openskyAircraft_ok heqA
                    rw [heq5] at e5
                    rw [heq6] at e6
                    injection e5 with e5x
                    injection e6 with e6x
                    subst e5x
                    subst e6x
                    refine ⟨⟨?_, ?_⟩, psrc, ptime⟩
                    · rw [p6]
                      exact isNullJ_eq_false h6
                    · rw [p5]
                      exact isNullJ_eq_false h5
                  | tail _ hr2 => exact ih _ heqR r hr2

theorem localEntries_char (n t : String) (acs : List (List (String × JValue))) :
    localEntries n t (acs.map JValue.obj) =
      Except.ok
        ((acs.filter (fun ac => hasKey ac "lat" && hasKey ac "lon")).map (localAircraft n t)) := by
  induction acs with
  | nil => rfl
  | cons ac rest ih =>
    simp only [List.map_cons, localEntries, List.filter_cons]
    by_cases hk : (hasKey ac "lat" && hasKey ac "lon") = true
    · simp [hk, ih]
    · simp [hk, ih]

theorem isTerm_prependSleeps (pre : List Nat) (r : StepResult) :
    isTerm (prependSleeps pre r) = isTerm r := by
  cases r <;> rfl

theorem applyPendingBackoff_errorCount (s : LoopState) :
    ((applyPendingBackoff s).1).errorCount = s.errorCount := by
  unfold applyPendingBackoff
  split <;> rfl

theorem applyPendingBackoff_backoff (s : LoopState) :
    ((applyPendingBackoff s).1).rateLimitBackoff = 0 := by
  unfold applyPendingBackoff
  split
  · rfl
  · rename_i h
    show s.rateLimitBackoff = 0
    omega

/-- C1.  After a `RateLimitException` (429/403) with the incremented error
count still below the budget, the cycle ends by storing
`min(pollInterval * 2 ^ newCount, 300)` as pending backoff and sleeping the
normal poll interval; and in any cycle entered with a positive pending
backoff, that amount is slept in full and the state is reset to zero
pending backoff before the fetch outcome is handled. -/
theorem c1_rate_limited_defers_backoff (cfg : LoopConfig) (s : LoopState) (m : String)
    (pr : Except String Unit) (h : s.errorCount + 1 < cfg.maxConsecutiveErrors) :
    loopStep cfg s (Except.error (FetchError.rateLimited m)) pr =
      StepResult.cont
        ⟨s.errorCount + 1, min (cfg.pollInterval * 2 ^ (s.errorCount + 1)) 300⟩
        ⟨(applyPendingBackoff s).2 ++ [cfg.pollInterval], none⟩
    ∧ ∀ (ec B : Nat) (fr : Except FetchError (List Record)) (pr2 : Except String Unit),
        0 < B →
          loopStep cfg ⟨ec, B⟩ fr pr2 =
            prependSleeps [B] (handleOutcome cfg ⟨ec, 0⟩ fr pr2) := by
  have hn : ¬ cfg.maxConsecutiveErrors ≤ s.errorCount + 1 := by omega
  refine ⟨?_, ?_⟩
  · unfold loopStep
    by_cases hb : 0 < s.rateLimitBackoff <;>
      simp [applyPendingBackoff, hb, handleOutcome, hn, prependSleeps]
  · intro ec B fr pr2 hB
    unfold loopStep applyPendingBackoff
    simp [hB]

theorem c1_rate_limited_defers_backoff_witness :
    loopStep cfgEx ⟨0, 0⟩ (Except.error (FetchError.rateLimited "429")) (Except.ok ()) =
      StepResult.cont ⟨1, 20⟩ ⟨[10], none⟩
    ∧ loopStep cfgEx ⟨1, 20⟩ (Except.ok []) (Except.ok ()) =
      prependSleeps [20] (handleOutcome cfgEx ⟨1, 0⟩ (Except.ok []) (Except.ok ())) := by
  have h := c1_rate_limited_defers_backoff cfgEx ⟨0, 0⟩ "429" (Except.ok ()) (by decide)
  exact ⟨h.1, h.2 1 20 (Except.ok []) (Except.ok ()) (by decide)⟩

/-- C2.  After a `Transient` failure with the incremented count below the
budget, the cycle sleeps `min(pollInterval * 2 ^ newCount, 300)` in the
same cycle and stores no pending backoff; and a publish failure on a
non-empty batch yields exactly the same continuation state, sleeps and
termination behaviour as a `Transient` fetch failure. -/
theorem c2_transient_immediate_backoff (cfg : LoopConfig) (s : LoopState) (m : String)
    (pr : Except String Unit) (h : s.errorCount + 1 < cfg.maxConsecutiveErrors) :
    loopStep cfg s (Except.error (FetchError.transient m)) pr =
      StepResult.cont ⟨s.errorCount + 1, 0⟩
        ⟨(applyPendingBackoff s).2 ++ [min (cfg.pollInterval * 2 ^ (s.errorCount + 1)) 300],
          none⟩
    ∧ ∀ (data : List Record) (e : String) (pr2 : Except String Unit),
        data ≠ [] →
          stepControl (loopStep cfg s (Except.ok data) (Except.error e)) =
            stepControl (loopStep cfg s (Except.error (FetchError.transient m)) pr2) := by
  have hn : ¬ cfg.maxConsecutiveErrors ≤ s.errorCount + 1 := by omega
  refine ⟨?_, ?_⟩
  · unfold loopStep
    by_cases hb : 0 < s.rateLimitBackoff <;>
      simp [applyPendingBackoff, hb, handleOutcome, hn, prependSleeps] <;> omega
  · intro data e pr2 hd
    cases data with
    | nil => exact absurd rfl hd
    | cons r rs =>
      unfold loopStep
      by_cases hb : 0 < s.rateLimitBackoff <;>
        by_cases hm : cfg.maxConsecutiveErrors ≤ s.errorCount + 1 <;>
          simp [applyPendingBackoff, hb, hm, handleOutcome, prependSleeps, stepControl]

theorem c2_transient_immediate_backoff_witness :
    loopStep cfgEx ⟨0, 0⟩ (Except.error (FetchError.transient "boom")) (Except.ok ()) =
      StepResult.cont ⟨1, 0⟩ ⟨[20], none⟩
    ∧ stepControl (loopStep cfgEx ⟨0, 0⟩ (Except.ok [acPos]) (Except.error "flush timeout")) =
      stepControl (loopStep cfgEx ⟨0, 0⟩ (Except.error (FetchError.transient "boom"))
        (Except.ok ())) := by
  have h := c2_transient_immediate_backoff cfgEx ⟨0, 0⟩ "boom" (Except.ok ()) (by decide)
  exact ⟨h.1, h.2 [acPos] "flush timeout" (Except.ok ()) (List.cons_ne_nil acPos [])⟩

/-- C5.  One loop iteration ends in a `break` exactly when the cycle was a
failure (fetch raised, or a non-empty batch whose publish raised) and the
incremented consecutive error count reached the configured budget; success
cycles, empty batches and failures below the budget always continue. -/
theorem c5_terminates_iff_error_budget (cfg : LoopConfig) (s : LoopState)
    (fr : Except FetchError (List Record)) (pr : Except String Unit) :
    isTerm (loopStep cfg s fr pr) =
      (outcomeIsFailure fr pr && decide (cfg.maxConsecutiveErrors ≤ s.errorCount + 1)) := by
  unfold loopStep
  rw [isTerm_prependSleeps]
  have hec := applyPendingBackoff_errorCount s
  cases fr with
  | error err =>
    cases err <;>
      by_cases hm : cfg.maxConsecutiveErrors ≤ s.errorCount + 1 <;>
        simp [handleOutcome, outcomeIsFailure, isTerm, hec, hm]
  | ok data =>
    cases data with
    | nil => simp [handleOutcome, outcomeIsFailure, isTerm]
    | cons r rs =>
      cases pr with
      | ok u => simp [handleOutcome, outcomeIsFailure, isTerm]
      | error e =>
        by_cases hm : cfg.maxConsecutiveErrors ≤ s.errorCount + 1 <;>
          simp [handleOutcome, outcomeIsFailure, isTerm, hec, hm]

/-- C7.  A cycle whose fetch succeeds with a non-empty batch and whose
publish succeeds resets the error count to zero; a cycle with an empty
batch calls no publish (its outcome is irrelevant and nothing is recorded
as published) and leaves the error count unchanged; both sleep the poll
interval and continue. -/
theorem c7_success_cycle (cfg : LoopConfig) (s : LoopState) (data : List Record)
    (pr : Except String Unit) :
    (data ≠ [] →
      loopStep cfg s (Except.ok data) (Except.ok ()) =
        StepResult.cont ⟨0, 0⟩ ⟨(applyPendingBackoff s).2 ++ [cfg.pollInterval], some data⟩)
    ∧ loopStep cfg s (Except.ok []) pr =
        StepResult.cont ⟨s.errorCount, 0⟩
          ⟨(applyPendingBackoff s).2 ++ [cfg.pollInterval], none⟩ := by
  refine ⟨?_, ?_⟩
  · intro hd
    cases data with
    | nil => exact absurd rfl hd
    | cons r rs =>
      unfold loopStep
      by_cases hb : 0 < s.rateLimitBackoff <;>
        simp [applyPendingBackoff, hb, handleOutcome, prependSleeps] <;> omega
  · unfold loopStep
    by_cases hb : 0 < s.rateLimitBackoff <;>
      simp [applyPendingBackoff, hb, handleOutcome, prependSleeps] <;> omega

theorem c7_success_cycle_witness :
    loopStep cfgEx ⟨2, 0⟩ (Except.ok [acPos]) (Except.ok ()) =
      StepResult.cont ⟨0, 0⟩ ⟨[10], some [acPos]⟩
    ∧ loopStep cfgEx ⟨2, 0⟩ (Except.ok []) (Except.ok ()) =
      StepResult.cont ⟨2, 0⟩ ⟨[10], none⟩ := by
  have h := c7_success_cycle cfgEx ⟨2, 0⟩ [acPos] (Except.ok ())
  exact ⟨h.1 (List.cons_ne_nil acPos []), h.2⟩

/-- C8.  With N configured URLs the first N fetch calls use the URLs in
configured order, the call after them wraps to the first URL again, and
every single call advances the rotation cursor by exactly one position
(before any request is made, so also when the fetch fails). -/
theorem c8_url_rotation (urls : List String) (h : urls ≠ []) :
    (∀ i, i < urls.length → urlUsed urls i = urls.get? i)
    ∧ urlUsed urls urls.length = urls.get? 0
    ∧ ∀ c : UrlCursor, (c.take.2.pos = c.pos + 1 ∧ c.take.1 = urlUsed c.urls c.pos) := by
  refine ⟨?_, ?_, ?_⟩
  · intro i hi
    unfold urlUsed
    rw [Nat.mod_eq_of_lt hi]
  · unfold urlUsed
    rw [Nat.mod_self]
  · intro c
    exact ⟨rfl, rfl⟩

theorem c8_url_rotation_witness :
    urlUsed ["http://a", "http://b"] 0 = some "http://a"
    ∧ urlUsed ["http://a", "http://b"] 1 = some "http://b"
    ∧ urlUsed ["http://a", "http://b"] 2 = some "http://a"
    ∧ (UrlCursor.take ⟨["http://a", "http://b"], 5⟩).2.pos = 6 := by
  have h := c8_url_rotation ["http://a", "http://b"] (by decide)
  exact ⟨h.1 0 (by decide), h.1 1 (by decide), h.2.1, (h.2.2 ⟨["http://a", "http://b"], 5⟩).1⟩

/-- C10.  `publish_batch` on an empty batch returns at once: no record is
sent, the flush is not reached, and no exception can be raised, whatever
the broker would have done. -/
theorem c10_publish_empty_batch_noop (topic : String) (brokerOutcome : Except String Unit) :
    publishBatch topic [] brokerOutcome = (⟨[], false⟩, Except.ok ()) := rfl

theorem configInit_ok_inv {env : List (String × String)} {c : Config}
    (h : configInit env = Except.ok c) :
    c.sourceType = envGetD env "SOURCE_TYPE" "local"
    ∧ validSources.contains c.sourceType = true
    ∧ envGet env "KAFKA_TOPIC" ≠ none
    ∧ envGet env "SOURCE_URLS" ≠ none := by
  unfold configInit configValidate at h
  repeat' split at h
  all_goals try simp at h
  all_goals repeat' split at h
  all_goals try simp at h
  all_goals subst h
  all_goals refine ⟨rfl, ?_, ?_, ?_⟩ <;> simp_all

/-- C3, counterexample.  With a well-formed configuration (both required
keys set), reaching the consecutive-error budget leaves the loop through a
plain `break` and `main` returns normally, so the process exit code is 0,
not non-zero as claimed for the fatal path. -/
theorem c3_counterexample_fatal_path_exits_zero :
    isOkE (configInit envC3) = true
    ∧ mainExitCode (configInit envC3) LoopExit.errorBudgetExceeded = 0 :=
  ⟨rfl, rfl⟩

/-- C3, amended.  The exit code is 0 on graceful interrupt AND on the
max-consecutive-error fatal path (the loop just breaks and `main` returns);
it is non-zero (1, an uncaught `ValueError`) exactly on configuration
failure: missing `KAFKA_TOPIC`, missing `SOURCE_URLS`, or an unrecognized
source type. -/
theorem c3_exit_codes_amended :
    (∀ env : List (String × String), envGet env "KAFKA_TOPIC" = none →
      isOkE (configInit env) = false)
    ∧ (∀ env : List (String × String), envGet env "SOURCE_URLS" = none →
      isOkE (configInit env) = false)
    ∧ (∀ env : List (String × String),
        validSources.contains (envGetD env "SOURCE_TYPE" "local") = false →
          isOkE (configInit env) = false)
    ∧ (∀ (m : String) (le : LoopExit), mainExitCode (Except.error m) le = 1)
    ∧ (∀ c : Config, mainExitCode (Except.ok c) LoopExit.gracefulInterrupt = 0)
    ∧ (∀ c : Config, mainExitCode (Except.ok c) LoopExit.errorBudgetExceeded = 0) := by
  refine ⟨?_, ?_, ?_, ?_, ?_, ?_⟩
  · intro env h
    cases hk : configInit env with
    | error e => rfl
    | ok c => exact absurd (configInit_ok_inv hk).2.2.1 (by simp [h])
  · intro env h
    cases hk : configInit env with
    | error e => rfl
    | ok c => exact absurd (configInit_ok_inv hk).2.2.2 (by simp [h])
  · intro env h
    cases hk : configInit env with
    | error e => rfl
    | ok c =>
      have h1 := (configInit_ok_inv hk).1
      have h2 := (configInit_ok_inv hk).2.1
      rw [h1, h] at h2
      exact absurd h2 (by simp)
  · intro m le
    rfl
  · intro c
    rfl
  · intro c
    rfl

/-- C4, counterexample.  The local variant checks only key PRESENCE
(`if 'lat' not in ac or 'lon' not in ac`): an aircraft entry whose `lat`
and `lon` keys are present with null values — an entry with no latitude or
longitude value, for which the other three variants drop the record — is
normalized and handed to the publisher with null coordinates. -/
theorem c4_counterexample_local_null_position :
    localFetch "local" "T0" respNullPos = Except.ok [localAircraft "local" "T0" acNullPos]
    ∧ pyGet (localAircraft "local" "T0" acNullPos) "lat" = JValue.null
    ∧ pyGet (localAircraft "local" "T0" acNullPos) "lon" = JValue.null
    ∧ loopStep cfgEx ⟨0, 0⟩ (Except.ok [localAircraft "local" "T0" acNullPos])
        (Except.ok ()) =
      StepResult.cont ⟨0, 0⟩ ⟨[10], some [localAircraft "local" "T0" acNullPos]⟩ :=
  ⟨rfl, rfl, rfl, rfl⟩

/-- C4, amended.  Every variant drops entries whose `lat` or `lon` is
absent: the local variant keeps exactly the entries that carry both keys
(null values included), while the regional, global-stream and OpenSky
variants additionally drop null-valued coordinates, so each of their
published records has non-null latitude and longitude. -/
theorem c4_position_filter_amended :
    (∀ (n t : String) (acs : List (List (String × JValue))),
      localEntries n t (acs.map JValue.obj) =
        Except.ok
          ((acs.filter (fun ac => hasKey ac "lat" && hasKey ac "lon")).map
            (localAircraft n t)))
    ∧ (∀ (n t : String) (resp : HttpResp) (b : List Record),
        regionalFetch n t resp = Except.ok b → ∀ r ∈ b, hasPosition r)
    ∧ (∀ (n t : String) (resp : HttpResp) (b : List Record),
        streamFetch n t resp = Except.ok b → ∀ r ∈ b, hasPosition r)
    ∧ (∀ (n t : String) (tok : TokenState) (tr dr : HttpResp) (b : List Record),
        openskyFetch n t tok tr dr = Except.ok b → ∀ r ∈ b, hasPosition r) := by
  refine ⟨?_, ?_, ?_, ?_⟩
  · intro n t acs
    exact localEntries_char n t acs
  · intro n t resp b h r hr
    unfold regionalFetch at h
    obtain ⟨data, _, hp⟩ := httpClassified_ok h
    obtain ⟨es, he⟩ := parsePayload_ok hp
    exact (regionalEntries_props n t es b he r hr).1
  · intro n t resp b h r hr
    unfold streamFetch at h
    obtain ⟨data, _, hp⟩ := httpClassified_ok h
    obtain ⟨es, he⟩ := parsePayload_ok hp
    exact (streamEntries_props n t es b he r hr).1
  · intro n t tok tr dr b h r hr
    obtain ⟨sts, he⟩ := openskyFetch_ok h
    exact (openskyStates_props n t sts b he r hr).1

theorem c4_position_filter_amended_witness :
    localEntries "src" "T0" [JValue.obj acPos, JValue.obj [("lat", JValue.num 1)]] =
      Except.ok [localAircraft "src" "T0" acPos]
    ∧ hasPosition (regionalAircraft "src" "T0" acPos)
    ∧ hasPosition (streamAircraft "src" "T0" acPos)
    ∧ hasPosition openskyRecEx := by
  have h := c4_position_filter_amended
  refine ⟨?_, ?_, ?_, ?_⟩
  · exact h.1 "src" "T0" [acPos, [("lat", JValue.num 1)]]
  · exact h.2.1 "src" "T0" respPosAc [regionalAircraft "src" "T0" acPos] rfl _
      (List.mem_singleton.mpr rfl)
  · exact h.2.2.1 "src" "T0" respPosAircraft [streamAircraft "src" "T0" acPos] rfl _
      (List.mem_singleton.mpr rfl)
  · exact h.2.2.2 "src" "T0" ⟨none, false⟩ tokenRespOk respStates [openskyRecEx] rfl _
      (List.mem_singleton.mpr rfl)

/-- C6, counterexample.  A 401 from the token endpoint makes
`get_access_token` raise a plain `HTTPError`, which
`GlobalOpenSkyScraper.fetch` re-raises unchanged: the loop receives a
generic (`transient`) failure, not the `RateLimited`/`Forbidden` class. -/
theorem c6_counterexample_token_failure_not_rate_limited :
    openskyFetch "global" "T0" ⟨none, false⟩ tokenResp401 respStates =
      Except.error (FetchError.transient "HTTPError from token endpoint")
    ∧ isRateLimitedErr
        (openskyFetch "global" "T0" ⟨none, false⟩ tokenResp401 respStates) = false
    ∧ isOkE (openskyFetch "global" "T0" ⟨none, false⟩ tokenResp401 respStates) = false :=
  ⟨rfl, rfl, rfl⟩

/-- C6, amended.  A failure of token acquisition/refresh propagates as a
generic exception, handled by the loop through the `Transient` branch
(immediate backoff); only 429/403 on the subsequent data request — for
instance when the acquired token is invalid — are surfaced as the
`RateLimited`/`Forbidden` class. -/
theorem c6_token_failure_classification_amended :
    (∀ (n t : String) (tok : TokenState) (tr dr : HttpResp) (e : String),
      getAccessToken tok tr = Except.error e →
        openskyFetch n t tok tr dr = Except.error (FetchError.transient e))
    ∧ (∀ (n t : String) (tok : TokenState) (tr dr : HttpResp) (res : JValue × TokenState),
        getAccessToken tok tr = Except.ok res →
          dr.status = 429 ∨ dr.status = 403 →
            isRateLimitedErr (openskyFetch n t tok tr dr) = true) := by
  constructor
  · intro n t tok tr dr e h
    unfold openskyFetch
    rw [h]
  · intro n t tok tr dr res h hs
    unfold openskyFetch
    rw [h]
    rcases hs with hs | hs <;> simp [hs, isRateLimitedErr]

theorem c6_token_failure_classification_amended_witness :
    openskyFetch "global" "T0" ⟨none, false⟩ tokenResp401 respStates =
      Except.error (FetchError.transient "HTTPError from token endpoint")
    ∧ isRateLimitedErr
        (openskyFetch "global" "T0" ⟨none, false⟩ tokenRespOk ⟨429, none⟩) = true := by
  have h := c6_token_failure_classification_amended
  exact ⟨h.1 "global" "T0" ⟨none, false⟩ tokenResp401 respStates
      "HTTPError from token endpoint" rfl,
    h.2 "global" "T0" ⟨none, false⟩ tokenRespOk ⟨429, none⟩
      (JValue.str "tok", ⟨some (JValue.str "tok"), true⟩) rfl (Or.inl rfl)⟩

/-- C9.  In every variant, each record of a successfully fetched batch
carries the one `scrape_time` value taken for that fetch and the
configured source name. -/
theorem c9_shared_batch_metadata (n t : String) :
    (∀ (resp : HttpResp) (b : List Record), localFetch n t resp = Except.ok b →
      ∀ r ∈ b, pyGet r "source" = JValue.str n ∧ pyGet r "scrape_time" = JValue.str t)
    ∧ (∀ (resp : HttpResp) (b : List Record), regionalFetch n t resp = Except.ok b →
      ∀ r ∈ b, pyGet r "source" = JValue.str n ∧ pyGet r "scrape_time" = JValue.str t)
    ∧ (∀ (resp : HttpResp) (b : List Record), streamFetch n t resp = Except.ok b →
      ∀ r ∈ b, pyGet r "source" = JValue.str n ∧ pyGet r "scrape_time" = JValue.str t)
    ∧ (∀ (tok : TokenState) (tr dr : HttpResp) (b : List Record),
        openskyFetch n t tok tr dr = Except.ok b →
          ∀ r ∈ b, pyGet r "source" = JValue.str n ∧ pyGet r "scrape_time" = JValue.str t) := by
  refine ⟨?_, ?_, ?_, ?_⟩
  · intro resp b h r hr
    unfold localFetch at h
    obtain ⟨data, _, hp⟩ := httpClassified_ok h
    obtain ⟨es, he⟩ := parsePayload_ok hp
    exact localEntries_props n t es b he r hr
  · intro resp b h r hr
    unfold regionalFetch at h
    obtain ⟨data, _, hp⟩ := httpClassified_ok h
    obtain ⟨es, he⟩ := parsePayload_ok hp
    exact (regionalEntries_props n t es b he r hr).2
  · intro resp b h r hr
    unfold streamFetch at h
    obtain ⟨data, _, hp⟩ := httpClassified_ok h
    obtain ⟨es, he⟩ := parsePayload_ok hp
    exact (streamEntries_props n t es b he r hr).2
  · intro tok tr dr b h r hr
    obtain ⟨sts, he⟩ := openskyFetch_ok h
    exact (openskyStates_props n t sts b he r hr).2

theorem c9_shared_batch_metadata_witness :
    pyGet (localAircraft "src" "T0" acPos) "source" = JValue.str "src"
    ∧ pyGet (regionalAircraft "src" "T0" acPos) "scrape_time" = JValue.str "T0"
    ∧ pyGet (streamAircraft "src" "T0" acPos) "source" = JValue.str "src"
    ∧ pyGet openskyRecEx "scrape_time" = JValue.str "T0" := by
  have h := c9_shared_batch_metadata "src" "T0"
  exact ⟨(h.1 respPosAircraft [localAircraft "src" "T0" acPos] rfl _
      (List.mem_singleton.mpr rfl)).1,
    (h.2.1 respPosAc [regionalAircraft "src" "T0" acPos] rfl _
      (List.mem_singleton.mpr rfl)).2,
    (h.2.2.1 respPosAircraft [streamAircraft "src" "T0" acPos] rfl _
      (List.mem_singleton.mpr rfl)).1,
    (h.2.2.2 ⟨none, false⟩ tokenRespOk respStates [openskyRecEx] rfl _
      (List.mem_singleton.mpr rfl)).2⟩

theorem c3_exit_codes_amended_witness :
    isOkE (configInit []) = false
    ∧ isOkE (configInit [("KAFKA_TOPIC", "adsb")]) = false
    ∧ isOkE (configInit envBadType) = false
    ∧ mainExitCode (Except.error "ValueError") LoopExit.gracefulInterrupt = 1
    ∧ mainExitCode (Except.ok someConfig) LoopExit.gracefulInterrupt = 0
    ∧ mainExitCode (Except.ok someConfig) LoopExit.errorBudgetExceeded = 0 := by
  have h := c3_exit_codes_amended
  exact ⟨h.1 [] rfl, h.2.1 [("KAFKA_TOPIC", "adsb")] rfl, h.2.2.1 envBadType rfl,
    h.2.2.2.1 "ValueError" LoopExit.gracefulInterrupt, h.2.2.2.2.1 someConfig,
    h.2.2.2.2.2 someConfig⟩

end AdsbScraper
